import Mathlib

/-!
Verification development for the EtherealEngine material / render-state and
resource-binding subsystem (src/engine/source/runtime/rendering/material.h,
src/engine/source/runtime/rendering/index_buffer.h).

Scalar values (C++ `float`) are embedded as exact rationals: the code under
study only stores and retrieves these values (no float arithmetic occurs in
the claims' code paths), so decimal literals map injectively to model values
exactly as they do to `float` literals in the source.

Method bodies of this repository that live in translation units missing from
the source tree (only the headers are present) are modelled from the spec;
each such definition carries a doc comment starting `Modelled from the spec:`.
Everything else is translated directly from the header source.
-/

namespace EtherealEngine

/-- Embeds `math::color` (mathfu float 4-vector used as RGBA color). -/
structure color where
  r : ℚ
  g : ℚ
  b : ℚ
  a : ℚ
deriving DecidableEq, Repr

/-- Embeds `math::vec2`. -/
structure vec2 where
  x : ℚ
  y : ℚ
deriving DecidableEq, Repr

/-- Embeds `math::vec4`. -/
structure vec4 where
  x : ℚ
  y : ℚ
  z : ℚ
  w : ℚ
deriving DecidableEq, Repr

/-- Embeds `enum class cull_type : std::uint32_t { none, clockwise, counter_clockwise }`
(material.h lines 15-20). -/
inductive cull_type where
  | none
  | clockwise
  | counter_clockwise
deriving DecidableEq, Repr

/-- Embeds `struct program` (shader program). Opaque collaborator: only its
identity matters to the claims, so it is a tagged value. -/
structure program where
  id : Nat
deriving DecidableEq, Repr

/-- Embeds `struct texture`. Opaque collaborator, tagged value. -/
structure texture where
  id : Nat
deriving DecidableEq, Repr

/-- Embeds `asset_handle<texture>`: a lazily-resolving asset reference.
`link = some t` means the reference has resolved to a loaded texture `t`;
`link = none` means unresolved/pending (spec: "possibly unresolved/pending"). -/
structure asset_handle where
  link : Option texture
deriving DecidableEq, Repr

/-- A default-constructed (unresolved) asset handle. -/
def asset_handle.empty : asset_handle := { link := Option.none }

/-- The source kind of a texture binding: the four `set_texture` overloads
unify two source kinds (material.h lines 66-110): a frame-buffer attachment
(handle id + attachment index) or a texture (id). High-level wrapper vs raw
device handle carry the same information for binding purposes. -/
inductive tex_source where
  | frame_buffer_attachment (handle : Nat) (attachment : Nat)
  | texture_source (id : Nat)
deriving DecidableEq, Repr

/-- A Texture-Binding-Entry: stage index, source, sampler flags
(spec section 3: "{stage index, sampler name, target, sampler flags}";
the sampler name is the key of the table, not stored in the entry). -/
structure texture_binding_entry where
  stage : Nat
  source : tex_source
  flags : Nat
deriving DecidableEq, Repr

/-- A raw uniform value blob, abstracted as a list of scalars. -/
def blob := List ℚ
deriving DecidableEq

/-- A Uniform-Binding-Entry: raw value blob and element count
(spec section 3: "{name (unique key), raw value blob, element count}";
the name is the key of the table). -/
structure uniform_binding_entry where
  value : blob
  num : Nat
deriving DecidableEq

/-- Upsert into an association list keyed by the first component: replaces
the entry for `k` if present, appends otherwise. This embeds
`std::unordered_map::operator[]` assignment, whose observable content is
exactly "current value per key". -/
def upsert (k : String) (v : α) : List (String × α) → List (String × α)
  | [] => [(k, v)]
  | (k2, v2) :: rest => if k2 = k then (k, v) :: rest else (k2, v2) :: upsert k v rest

/-- Embeds `class material` (material.h lines 22-184). Fields are the
protected data members plus the public `skinned` flag, plus the two
name-keyed binding tables the spec ascribes to the material
(spec section 3: "a mapping from sampler-name to Texture-Binding-Entry, a
mapping from uniform-name to Uniform-Binding-Entry"; their backing store is
in the missing translation unit, so the tables are modelled from the spec). -/
structure material where
  skinned : Bool
  m_program : Option program
  m_program_skinned : Option program
  m_cull_type : cull_type
  m_default_color_map : asset_handle
  m_default_normal_map : asset_handle
  texture_table : List (String × texture_binding_entry)
  uniform_table : List (String × uniform_binding_entry)

/-- Embeds the in-class initializers / default constructor of `material`:
`skinned = false` (line 172), `_cull_type = cull_type::counter_clockwise`
(line 179), programs default-constructed null `unique_ptr`s, default maps
default-constructed (unresolved) asset handles, empty binding tables
(spec section 3: "constructed with no program (invalid)"). -/
def material.ctor : material :=
  { skinned := false
  , m_program := Option.none
  , m_program_skinned := Option.none
  , m_cull_type := cull_type.counter_clockwise
  , m_default_color_map := asset_handle.empty
  , m_default_normal_map := asset_handle.empty
  , texture_table := []
  , uniform_table := [] }

/-- Modelled from the spec: `material::get_program` (declared material.h line
130, body in a missing translation unit). Spec section 4.2: "returns the
primary Program pointer (non-owning view) ... base class default always
exposes the primary". -/
def material.get_program (m : material) : Option program :=
  m.m_program

/-- Embeds `inline bool is_valid() const { return !!get_program(); }`
(material.h line 56). -/
def material.is_valid (m : material) : Bool :=
  (m.get_program).isSome

/-- Modelled from the spec: `material::set_uniform` (declared material.h line
120, body in a missing translation unit). Spec section 4.2: "upserts the
Uniform-Binding-Entry keyed by `name` ... Deferred application". -/
def material.set_uniform (m : material) (name : String) (value : blob) (num : Nat) : material :=
  { m with uniform_table := upsert name { value := value, num := num } m.uniform_table }

/-- Modelled from the spec: `material::set_texture` (declared material.h
lines 66-110, bodies in a missing translation unit). Spec section 4.2:
"upserts the Texture-Binding-Entry keyed by `sampler_name`; last call for a
given name wins. No immediate device call". The four C++ overloads differ
only in how the `tex_source` is designated. -/
def material.set_texture (m : material) (stage : Nat) (sampler : String)
    (src : tex_source) (flags : Nat) : material :=
  { m with texture_table :=
      upsert sampler { stage := stage, source := src, flags := flags } m.texture_table }

/-- Embeds `inline cull_type get_cull_type() const { return _cull_type; }`
(material.h line 150). -/
def material.get_cull_type (m : material) : cull_type :=
  m.m_cull_type

/-- Embeds `inline void set_cull_type(cull_type val) { _cull_type = val; }`
(material.h line 160). -/
def material.set_cull_type (m : material) (val : cull_type) : material :=
  { m with m_cull_type := val }

/-- Modelled from the spec: the device bit pattern for clockwise face
culling (winding + enable bits). The device layer's exact bit values are
opaque; what the spec fixes is that the two winding patterns are distinct
non-zero patterns and `0` means culling disabled. -/
def CULL_CW_BITS : Nat := 1

/-- Modelled from the spec: the device bit pattern for counter-clockwise
face culling. -/
def CULL_CCW_BITS : Nat := 2

/-- Modelled from the spec: the depth-write enable bit. -/
def DEPTH_WRITE_BIT : Nat := 4

/-- Modelled from the spec: the depth-test enable bit. -/
def DEPTH_TEST_BIT : Nat := 8

/-- Modelled from the spec: the culling-bit subset of the packed state word.
Spec section 4.2: "the material's Cull Type (mapped to a face-winding+enable
bit pattern, or \x22no culling\x22 when `apply_cull` is false or Cull Type is
none)". -/
def cull_bits (c : cull_type) (apply_cull : Bool) : Nat :=
  if apply_cull then
    match c with
    | cull_type.none => 0
    | cull_type.clockwise => CULL_CW_BITS
    | cull_type.counter_clockwise => CULL_CCW_BITS
  else 0

/-- Modelled from the spec: `material::get_render_states` (declared
material.h line 170, body in a missing translation unit). Spec section 4.2:
"pure function producing a packed 64-bit device state word, combining: the
material's Cull Type ... plus depth-write and depth-test enable bits per the
boolean arguments". The method is `const`: it reads only the material's
Cull Type and its arguments. -/
def material.get_render_states (m : material)
    (apply_cull : Bool) (depth_write : Bool) (depth_test : Bool) : Nat :=
  (cull_bits m.m_cull_type apply_cull
    ||| (if depth_write then DEPTH_WRITE_BIT else 0)
    ||| (if depth_test then DEPTH_TEST_BIT else 0)) % 2 ^ 64

/-- Embeds `class standard_material : public material`
(material.h lines 187-533): the base-class subobject plus the private
parameter fields and the name-keyed texture map table. -/
structure standard_material where
  base : material
  m_base_color : color
  m_subsurface_color : color
  m_emissive_color : color
  m_surface_data : vec4
  m_tiling : vec2
  m_dither_threshold : vec2
  m_maps : List (String × asset_handle)

/-- Embeds the in-class field initializers of `standard_material`
(material.h lines 493-532): base color {1,1,1,1}, subsurface color
{0,0,0,0.8}, emissive color {0,0,0,0}, surface data {0.3,0,1,0.25},
tiling {1,1}, dither threshold {0.5,0}, empty `_maps`. -/
def standard_material.ctor : standard_material :=
  { base := material.ctor
  , m_base_color := { r := 1.0, g := 1.0, b := 1.0, a := 1.0 }
  , m_subsurface_color := { r := 0.0, g := 0.0, b := 0.0, a := 0.8 }
  , m_emissive_color := { r := 0.0, g := 0.0, b := 0.0, a := 0.0 }
  , m_surface_data := { x := 0.3, y := 0.0, z := 1.0, w := 0.25 }
  , m_tiling := { x := 1.0, y := 1.0 }
  , m_dither_threshold := { x := 0.5, y := 0.0 }
  , m_maps := [] }

/-- Embeds `get_base_color` (material.h line 211). -/
def standard_material.get_base_color (m : standard_material) : color := m.m_base_color

/-- Embeds `set_base_color` (material.h line 221). -/
def standard_material.set_base_color (m : standard_material) (val : color) : standard_material :=
  { m with m_base_color := val }

/-- Embeds `get_subsurface_color` (material.h line 231). -/
def standard_material.get_subsurface_color (m : standard_material) : color := m.m_subsurface_color

/-- Embeds `set_subsurface_color` (material.h line 241). -/
def standard_material.set_subsurface_color (m : standard_material) (val : color) : standard_material :=
  { m with m_subsurface_color := val }

/-- Embeds `get_emissive_color` (material.h line 251). -/
def standard_material.get_emissive_color (m : standard_material) : color := m.m_emissive_color

/-- Embeds `set_emissive_color` (material.h line 261). -/
def standard_material.set_emissive_color (m : standard_material) (val : color) : standard_material :=
  { m with m_emissive_color := val }

/-- Embeds `inline float get_roughness() const { return _surface_data.x; }`
(material.h line 271). -/
def standard_material.get_roughness (m : standard_material) : ℚ := m.m_surface_data.x

/-- Embeds `inline void set_roughness(float) { _surface_data.x = ...; }`
(material.h line 281). -/
def standard_material.set_roughness (m : standard_material) (v : ℚ) : standard_material :=
  { m with m_surface_data := { m.m_surface_data with x := v } }

/-- Embeds `get_metalness` (material.h line 291). -/
def standard_material.get_metalness (m : standard_material) : ℚ := m.m_surface_data.y

/-- Embeds `set_metalness` (material.h line 301). -/
def standard_material.set_metalness (m : standard_material) (v : ℚ) : standard_material :=
  { m with m_surface_data := { m.m_surface_data with y := v } }

/-- Embeds `get_bumpiness` (material.h line 311). -/
def standard_material.get_bumpiness (m : standard_material) : ℚ := m.m_surface_data.z

/-- Embeds `set_bumpiness` (material.h line 321). -/
def standard_material.set_bumpiness (m : standard_material) (v : ℚ) : standard_material :=
  { m with m_surface_data := { m.m_surface_data with z := v } }

/-- Embeds `get_alpha_test_value` (material.h line 331). -/
def standard_material.get_alpha_test_value (m : standard_material) : ℚ := m.m_surface_data.w

/-- Embeds `set_alpha_test_value` (material.h line 341). -/
def standard_material.set_alpha_test_value (m : standard_material) (v : ℚ) : standard_material :=
  { m with m_surface_data := { m.m_surface_data with w := v } }

/-- Embeds `get_tiling` (material.h line 351). -/
def standard_material.get_tiling (m : standard_material) : vec2 := m.m_tiling

/-- Embeds `get_dither_threshold` (material.h line 371). -/
def standard_material.get_dither_threshold (m : standard_material) : vec2 := m.m_dither_threshold

/-- Embeds `_maps[name]` read access (material.h lines 391-481): an absent
slot reads as a default-constructed (unresolved) asset handle, exactly as
`std::unordered_map::operator[]` value-initializes an absent entry. -/
def standard_material.get_map (m : standard_material) (slot : String) : asset_handle :=
  match List.lookup slot m.m_maps with
  | Option.some h => h
  | Option.none => asset_handle.empty

/-- Embeds `_maps[name] = val` (material.h lines 401-481). -/
def standard_material.set_map (m : standard_material) (slot : String) (val : asset_handle) :
    standard_material :=
  { m with m_maps := upsert slot val m.m_maps }

/-- A CPU-side device command recorded by `submit()` (spec section 6:
`bind_texture`, `set_uniform`, `submit_draw` consumed from the device layer).
Uniform uploads of the parameter groups are recorded with their scalar
contents as a blob. -/
inductive device_cmd where
  | uniform_cmd (name : String) (value : blob) (num : Nat)
  | bind_texture_cmd (stage : Nat) (sampler : String) (tex : asset_handle) (flags : Nat)
  | submit_draw (prog : program) (states : Nat)
deriving DecidableEq

/-- Modelled from the spec: the Program variant `standard_material::submit`
selects (spec section 4.3 step 1): "primary if `skinned == false`,
skinned-variant Program if `skinned == true`". -/
def standard_material.selected_program (m : standard_material) : Option program :=
  if m.base.skinned then m.base.m_program_skinned else m.base.m_program

/-- The five fixed texture slots with their designated stages, in binding
order (spec section 4.3 step 3: "Bind each of the five fixed texture slots to
its designated sampler name and stage"). -/
def slot_stages : List (Nat × String) :=
  [(0, "color"), (1, "normal"), (2, "roughness"), (3, "metalness"), (4, "ao")]

/-- Modelled from the spec: the fallback asset reference for a slot (spec
section 4.3 step 3 policy: "color/roughness/metalness/ao slots fall back to
default color map; normal slot falls back to default normal map"). -/
def fallback_for (m : material) (slot : String) : asset_handle :=
  if slot = "normal" then m.m_default_normal_map else m.m_default_color_map

/-- Modelled from the spec: the asset reference actually bound for a slot at
submission: the slot's own reference when it has resolved to a loaded
texture, else the material's default map for that slot (spec section 4.3
step 3: "a slot whose asset reference has not resolved to a loaded Texture
binds the material's default color or default normal map instead"). -/
def standard_material.bound_map (m : standard_material) (slot : String) : asset_handle :=
  match (m.get_map slot).link with
  | Option.some _ => m.get_map slot
  | Option.none => fallback_for m.base slot

/-- Default sampler flags (`std::numeric_limits<std::uint32_t>::max()`,
material.h set_texture default arguments). -/
def UINT32_MAX : Nat := 2 ^ 32 - 1

/-- Modelled from the spec: the uniform uploads of the five parameter groups
(spec section 4.3 step 2: "Upload all five parameter groups as uniforms ...
every submit re-uploads current values"). -/
def standard_material.param_cmds (m : standard_material) : List device_cmd :=
  [ device_cmd.uniform_cmd "u_base_color"
      [m.m_base_color.r, m.m_base_color.g, m.m_base_color.b, m.m_base_color.a] 1
  , device_cmd.uniform_cmd "u_subsurface_color"
      [m.m_subsurface_color.r, m.m_subsurface_color.g, m.m_subsurface_color.b,
       m.m_subsurface_color.a] 1
  , device_cmd.uniform_cmd "u_emissive_color"
      [m.m_emissive_color.r, m.m_emissive_color.g, m.m_emissive_color.b,
       m.m_emissive_color.a] 1
  , device_cmd.uniform_cmd "u_surface_data"
      [m.m_surface_data.x, m.m_surface_data.y, m.m_surface_data.z, m.m_surface_data.w] 1
  , device_cmd.uniform_cmd "u_tiling"
      [m.m_tiling.x, m.m_tiling.y, m.m_dither_threshold.x, m.m_dither_threshold.y] 1 ]

/-- The texture-slot bind commands of one submission. -/
def standard_material.map_cmds (m : standard_material) : List device_cmd :=
  slot_stages.map (fun p => device_cmd.bind_texture_cmd p.1 p.2 (m.bound_map p.2) UINT32_MAX)

/-- Modelled from the spec: `standard_material::submit` (declared material.h
line 491, body in a missing translation unit), as the list of device commands
it records. Spec section 4.3: select the Program by the skinned flag — "if
the required variant is absent, submission is a no-op" — else upload the
parameter groups, bind the five texture slots with fallbacks, and issue the
draw with `get_render_states()` default (true,true,true) arguments. The
material itself is not mutated (submission only records device commands). -/
def standard_material.submit (m : standard_material) : List device_cmd :=
  match m.selected_program with
  | Option.none => []
  | Option.some p =>
      m.param_cmds ++ m.map_cmds
        ++ [device_cmd.submit_draw p (m.base.get_render_states true true true)]

/-- The bgfx invalid-handle sentinel (`gfx::invalidHandle`, a 16-bit
all-ones value). -/
def invalidHandle : Nat := 2 ^ 16 - 1

/-- Embeds `struct index_buffer` (index_buffer.h): one internal handle,
default-initialized to the invalid sentinel
(`gfx::IndexBufferHandle handle = { gfx::invalidHandle };`, line 48). -/
structure index_buffer where
  handle : Nat
deriving DecidableEq, Repr

/-- The default-constructed index buffer. -/
def index_buffer.ctor : index_buffer := { handle := invalidHandle }

/-- Modelled from the spec: `index_buffer::is_valid` (declared
index_buffer.h line 34, body in a missing translation unit). Spec section 3:
"`is_valid()` reflects handle validity"; a handle "is either valid ... or
the sentinel". -/
def index_buffer.is_valid (b : index_buffer) : Bool :=
  b.handle != invalidHandle

/-- Modelled from the spec: `index_buffer::dispose` (declared index_buffer.h
line 24, body in a missing translation unit). Spec section 4.1: "releases
the device resource if valid; sets to invalid sentinel; safe to call
repeatedly (idempotent)". -/
def index_buffer.dispose (b : index_buffer) : index_buffer :=
  if b.is_valid then { handle := invalidHandle } else b

/-- Modelled from the spec: `index_buffer::populate` (declared
index_buffer.h line 45, body in a missing translation unit). Spec section
4.1: "disposes any previously held resource, then requests a new device
resource"; on device failure the handle "remains the invalid sentinel".
The device's answer is passed in as `created` (the handle it assigned, or
the sentinel on failure), keeping the device layer opaque. -/
def index_buffer.populate (b : index_buffer) (created : Nat) : index_buffer :=
  let _disposed := b.dispose
  { handle := created }

/-- Applying a sequence of `set_uniform` calls for one name, in order
(spec section 8: "For all sequences of `set_uniform(name, blob, count)`"). -/
def material.apply_uniform_calls (m : material) (name : String)
    (calls : List (blob × Nat)) : material :=
  calls.foldl (fun acc c => acc.set_uniform name c.1 c.2) m

/-- Applying a sequence of `set_texture` calls for one sampler name, each
call carrying its own stage, source and flags. -/
def material.apply_texture_calls (m : material) (sampler : String)
    (calls : List (Nat × tex_source × Nat)) : material :=
  calls.foldl (fun acc c => acc.set_texture c.1 sampler c.2.1 c.2.2) m

theorem lookup_upsert {α : Type} (k : String) (v : α) (l : List (String × α)) :
    List.lookup k (upsert k v l) = Option.some v := by
  induction l with
  | nil => simp [upsert, List.lookup]
  | cons hd tl ih =>
    obtain ⟨k2, v2⟩ := hd
    by_cases h : k2 = k
    · simp [upsert, h, List.lookup]
    · have hne : (k == k2) = false := by simpa using Ne.symm h
      simp [upsert, h, List.lookup, ih, hne]

/-- C1: for every material M, `M.is_valid()` returns true if and only if
`M.get_program()` returns a non-null pointer. `is_valid` is inline in the
header (`return !!get_program();`), so this holds whatever the body of
`get_program` computes; both `is_valid` and `get_program` are non-virtual,
so it holds for base and derived materials alike. -/
theorem C1_is_valid_iff_program_nonnull (m : material) :
    m.is_valid = true ↔ m.get_program ≠ Option.none := by
  simp [material.is_valid, Option.isSome_iff_ne_none]

/-- C2: a default-constructed `standard_material` has exactly the parameter
values given by the in-class field initializers: base color (1,1,1,1),
subsurface color (0,0,0,0.8), emissive color (0,0,0,0), roughness 0.3,
metalness 0.0, bumpiness 1.0, alpha-test value 0.25, tiling (1,1), dither
threshold (0.5, 0). -/
theorem C2_default_parameter_values :
    standard_material.ctor.get_base_color = { r := 1, g := 1, b := 1, a := 1 } ∧
    standard_material.ctor.get_subsurface_color = { r := 0, g := 0, b := 0, a := 0.8 } ∧
    standard_material.ctor.get_emissive_color = { r := 0, g := 0, b := 0, a := 0 } ∧
    standard_material.ctor.get_roughness = 0.3 ∧
    standard_material.ctor.get_metalness = 0 ∧
    standard_material.ctor.get_bumpiness = 1 ∧
    standard_material.ctor.get_alpha_test_value = 0.25 ∧
    standard_material.ctor.get_tiling = { x := 1, y := 1 } ∧
    standard_material.ctor.get_dither_threshold = { x := 0.5, y := 0 } := by
  refine ⟨?_, ?_, ?_, ?_, ?_, ?_, ?_, ?_, ?_⟩ <;> norm_num
    [standard_material.ctor, standard_material.get_base_color,
     standard_material.get_subsurface_color, standard_material.get_emissive_color,
     standard_material.get_roughness, standard_material.get_metalness,
     standard_material.get_bumpiness, standard_material.get_alpha_test_value,
     standard_material.get_tiling, standard_material.get_dither_threshold]

/-- C3: `get_render_states(apply_cull, depth_write, depth_test)` is
deterministic and side-effect free: it is a pure function of the material's
Cull Type and the three boolean arguments, so any two calls on materials
with the same Cull Type and identical arguments return the identical packed
64-bit state word (and, being a pure function of a `const` receiver, it
changes no material state). -/
theorem C3_render_states_deterministic (m1 m2 : material)
    (h : m1.get_cull_type = m2.get_cull_type) (a d t : Bool) :
    m1.get_render_states a d t = m2.get_render_states a d t := by
  simp [material.get_render_states, material.get_cull_type] at *
  rw [h]

theorem C3_witness :
    ({ material.ctor with skinned := true } : material).get_cull_type
        = material.ctor.get_cull_type ∧
    ({ material.ctor with skinned := true } : material).get_render_states true false true
        = material.ctor.get_render_states true false true :=
  ⟨rfl, C3_render_states_deterministic { material.ctor with skinned := true }
      material.ctor rfl true false true⟩

/-- C4 counterexample: the combinations (cull_type.none, apply_cull = true)
and (cull_type.none, apply_cull = false) are distinct, yet they yield the
identical culling-bit subset (and the identical full packed word): "any two
distinct (cull_type, apply_cull) combinations yield distinct culling-bit
subsets" is false. -/
theorem C4_counterexample :
    ((cull_type.none, true) ≠ (cull_type.none, false)) ∧
    cull_bits cull_type.none true = cull_bits cull_type.none false ∧
    ({ material.ctor with m_cull_type := cull_type.none } : material).get_render_states
        true true true
      = ({ material.ctor with m_cull_type := cull_type.none } : material).get_render_states
        false true true := by
  refine ⟨?_, rfl, rfl⟩
  intro h
  simpa using congrArg Prod.snd h

/-- C4 (amended): when `apply_cull` is false or the Cull Type is `none`, the
culling bits encode "culling disabled" (the zero pattern); among the
remaining combinations (apply_cull = true, Cull Type ≠ none), distinct cull
types yield distinct non-zero culling-bit patterns. Moreover the culling
bits are recoverable from the packed word produced by `get_render_states`
(they are the word's low culling-mask bits). -/
theorem C4_culling_bits_amended :
    (∀ c : cull_type, cull_bits c false = 0) ∧
    cull_bits cull_type.none true = 0 ∧
    cull_bits cull_type.clockwise true ≠ cull_bits cull_type.counter_clockwise true ∧
    cull_bits cull_type.clockwise true ≠ 0 ∧
    cull_bits cull_type.counter_clockwise true ≠ 0 ∧
    (∀ (m : material) (a d t : Bool),
      m.get_render_states a d t &&& (CULL_CW_BITS ||| CULL_CCW_BITS)
        = cull_bits m.m_cull_type a) := by
  refine ⟨fun c => by cases c <;> rfl, rfl, by decide, by decide, by decide, ?_⟩
  intro m a d t
  cases a <;> cases d <;> cases t <;> cases h : m.m_cull_type <;>
    simp only [material.get_render_states, cull_bits, h] <;> decide

/-- C5: for every sequence of `set_uniform(name, blob, count)` calls with
the same name, only the blob and count of the last call are observed in the
uniform table that submission reads: re-setting a name overwrites the prior
value and count (last-write-wins keyed by name), for any starting material
state. -/
theorem C5_uniform_last_write_wins (name : String) (calls : List (blob × Nat))
    (v : blob × Nat) (h : calls.getLast? = Option.some v) (m : material) :
    List.lookup name (m.apply_uniform_calls name calls).uniform_table
      = Option.some { value := v.1, num := v.2 } := by
  induction calls generalizing m with
  | nil => simp at h
  | cons c cs ih =>
    cases cs with
    | nil =>
      simp [List.getLast?] at h
      subst h
      simp [material.apply_uniform_calls, material.set_uniform, lookup_upsert]
    | cons c2 cs2 =>
      have h2 : (c2 :: cs2).getLast? = Option.some v := by
        rwa [List.getLast?_cons_cons] at h
      simpa [material.apply_uniform_calls] using ih h2 (m.set_uniform name c.1 c.2)

theorem C5_witness :
    ([([1], 1), ([2, 3], 4)] : List (blob × Nat)).getLast? = Option.some ([2, 3], 4) ∧
    List.lookup "u_custom"
        (material.ctor.apply_uniform_calls "u_custom" [([1], 1), ([2, 3], 4)]).uniform_table
      = Option.some { value := [2, 3], num := 4 } :=
  ⟨rfl, C5_uniform_last_write_wins "u_custom" [([1], 1), ([2, 3], 4)] ([2, 3], 4)
      rfl material.ctor⟩

/-- C6: for every sequence of `set_texture` calls with the same sampler
name (possibly with different stage indices, sources or flags), only the
last call's stage, source and flags are observed in the texture table that
submission reads: the Texture-Binding-Entry is upserted keyed by sampler
name, not by stage, for any starting material state. -/
theorem C6_texture_last_write_wins (sampler : String)
    (calls : List (Nat × tex_source × Nat)) (v : Nat × tex_source × Nat)
    (h : calls.getLast? = Option.some v) (m : material) :
    List.lookup sampler (m.apply_texture_calls sampler calls).texture_table
      = Option.some { stage := v.1, source := v.2.1, flags := v.2.2 } := by
  induction calls generalizing m with
  | nil => simp at h
  | cons c cs ih =>
    cases cs with
    | nil =>
      simp [List.getLast?] at h
      subst h
      simp [material.apply_texture_calls, material.set_texture, lookup_upsert]
    | cons c2 cs2 =>
      have h2 : (c2 :: cs2).getLast? = Option.some v := by
        rwa [List.getLast?_cons_cons] at h
      simpa [material.apply_texture_calls] using ih h2 (m.set_texture c.1 sampler c.2.1 c.2.2)

theorem C6_witness :
    ([(0, tex_source.texture_source 5, 7), (3, tex_source.frame_buffer_attachment 9 1, 11)]
        : List (Nat × tex_source × Nat)).getLast?
      = Option.some (3, tex_source.frame_buffer_attachment 9 1, 11) ∧
    List.lookup "s_input"
        (material.ctor.apply_texture_calls "s_input"
          [(0, tex_source.texture_source 5, 7),
           (3, tex_source.frame_buffer_attachment 9 1, 11)]).texture_table
      = Option.some { stage := 3, source := tex_source.frame_buffer_attachment 9 1, flags := 11 } :=
  ⟨rfl, C6_texture_last_write_wins "s_input"
      [(0, tex_source.texture_source 5, 7), (3, tex_source.frame_buffer_attachment 9 1, 11)]
      (3, tex_source.frame_buffer_attachment 9 1, 11) rfl material.ctor⟩

/-- C7: a default-constructed `index_buffer` is invalid; after `populate()`
(whatever handle the device returned) followed by `dispose()`, `is_valid()`
is false; a second `dispose()` is a no-op leaving the buffer unchanged and
invalid — `dispose` is idempotent on every buffer state. -/
theorem C7_index_buffer_dispose_idempotent (b : index_buffer) (created : Nat) :
    index_buffer.ctor.is_valid = false ∧
    ((b.populate created).dispose).is_valid = false ∧
    ((b.populate created).dispose).dispose = (b.populate created).dispose ∧
    (b.dispose).dispose = b.dispose ∧
    (b.dispose).is_valid = false := by
  have key : ∀ x : index_buffer, (x.dispose).is_valid = false ∧ (x.dispose).dispose = x.dispose := by
    intro x
    by_cases h : x.handle = invalidHandle
    · simp [index_buffer.dispose, index_buffer.is_valid, h]
    · simp [index_buffer.dispose, index_buffer.is_valid, h]
  exact ⟨rfl, (key _).1, (key _).2, (key _).2, (key _).1⟩

/-- C8: `standard_material::submit()` selects the skinned-variant Program
when the skinned flag is true and the primary Program when it is false; when
the required variant is absent (null), submission records no device commands
at all (a no-op — no null Program is dereferenced, and submission never
mutates the material, being a pure recording of commands); when it is
present, the draw is issued with exactly the selected Program and the
default-argument render states. -/
theorem C8_submit_program_selection (m : standard_material) :
    m.selected_program
        = (if m.base.skinned then m.base.m_program_skinned else m.base.m_program) ∧
    (m.selected_program = Option.none → m.submit = []) ∧
    (∀ p, m.selected_program = Option.some p →
      device_cmd.submit_draw p (m.base.get_render_states true true true) ∈ m.submit) := by
  refine ⟨rfl, ?_, ?_⟩
  · intro h
    simp [standard_material.submit, h]
  · intro p hp
    simp [standard_material.submit, hp]

theorem C8_witness :
    ({ standard_material.ctor with
        base := { material.ctor with skinned := true } } : standard_material).submit = [] :=
  (C8_submit_program_selection
    { standard_material.ctor with base := { material.ctor with skinned := true } }).2.1 rfl

/-- C9: during `standard_material::submit()`, a slot whose asset reference
has not resolved to a loaded texture is never bound as null/invalid: the
binding recorded for it is the material's fallback map — the default normal
map for the "normal" slot, the default color map for the "color",
"roughness", "metalness" and "ao" slots — and when a Program is selected the
submission command list contains precisely that fallback bind at the slot's
designated stage. -/
theorem C9_unresolved_slot_fallback (m : standard_material) (stage : Nat) (slot : String)
    (hs : (stage, slot) ∈ slot_stages) (hu : (m.get_map slot).link = Option.none) :
    m.bound_map slot = fallback_for m.base slot ∧
    (slot = "normal" → m.bound_map slot = m.base.m_default_normal_map) ∧
    (slot ≠ "normal" → m.bound_map slot = m.base.m_default_color_map) ∧
    (∀ p, m.selected_program = Option.some p →
      device_cmd.bind_texture_cmd stage slot (fallback_for m.base slot) UINT32_MAX
        ∈ m.submit) := by
  have hb : m.bound_map slot = fallback_for m.base slot := by
    simp [standard_material.bound_map, hu]
  refine ⟨hb, ?_, ?_, ?_⟩
  · intro h
    rw [hb, fallback_for, if_pos h]
  · intro h
    rw [hb, fallback_for, if_neg h]
  · intro p hp
    have hmem : device_cmd.bind_texture_cmd stage slot (m.bound_map slot) UINT32_MAX
        ∈ m.map_cmds :=
      List.mem_map_of_mem
        (fun q : Nat × String =>
          device_cmd.bind_texture_cmd q.1 q.2 (m.bound_map q.2) UINT32_MAX) hs
    rw [hb] at hmem
    simp only [standard_material.submit, hp, List.mem_append]
    exact Or.inl (Or.inr hmem)

theorem C9_witness :
    ({ standard_material.ctor with
        base := { material.ctor with
          m_program := Option.some { id := 7 },
          m_default_normal_map := { link := Option.some { id := 1 } } } }
      : standard_material).bound_map "normal"
      = { link := Option.some { id := 1 } } :=
  (C9_unresolved_slot_fallback
    { standard_material.ctor with
        base := { material.ctor with
          m_program := Option.some { id := 7 },
          m_default_normal_map := { link := Option.some { id := 1 } } } }
    1 "normal" (by decide) rfl).2.1 rfl

/-- C10: each of the four surface-parameter setters of `standard_material`
writes only its own component of the shared `_surface_data` vector: it sets
its own value and leaves the other three surface components, all color
parameters, tiling, dither threshold, the texture-map table and the whole
base-material state (programs, cull type, skinned flag, defaults, binding
tables) unchanged. -/
theorem C10_surface_setters_disjoint (m : standard_material) (v : ℚ) :
    ((m.set_roughness v).get_roughness = v ∧
     (m.set_roughness v).get_metalness = m.get_metalness ∧
     (m.set_roughness v).get_bumpiness = m.get_bumpiness ∧
     (m.set_roughness v).get_alpha_test_value = m.get_alpha_test_value ∧
     (m.set_roughness v).get_base_color = m.get_base_color ∧
     (m.set_roughness v).get_subsurface_color = m.get_subsurface_color ∧
     (m.set_roughness v).get_emissive_color = m.get_emissive_color ∧
     (m.set_roughness v).get_tiling = m.get_tiling ∧
     (m.set_roughness v).get_dither_threshold = m.get_dither_threshold ∧
     (m.set_roughness v).m_maps = m.m_maps ∧
     (m.set_roughness v).base = m.base) ∧
    ((m.set_metalness v).get_metalness = v ∧
     (m.set_metalness v).get_roughness = m.get_roughness ∧
     (m.set_metalness v).get_bumpiness = m.get_bumpiness ∧
     (m.set_metalness v).get_alpha_test_value = m.get_alpha_test_value ∧
     (m.set_metalness v).get_base_color = m.get_base_color ∧
     (m.set_metalness v).get_subsurface_color = m.get_subsurface_color ∧
     (m.set_metalness v).get_emissive_color = m.get_emissive_color ∧
     (m.set_metalness v).get_tiling = m.get_tiling ∧
     (m.set_metalness v).get_dither_threshold = m.get_dither_threshold ∧
     (m.set_metalness v).m_maps = m.m_maps ∧
     (m.set_metalness v).base = m.base) ∧
    ((m.set_bumpiness v).get_bumpiness = v ∧
     (m.set_bumpiness v).get_roughness = m.get_roughness ∧
     (m.set_bumpiness v).get_metalness = m.get_metalness ∧
     (m.set_bumpiness v).get_alpha_test_value = m.get_alpha_test_value ∧
     (m.set_bumpiness v).get_base_color = m.get_base_color ∧
     (m.set_bumpiness v).get_subsurface_color = m.get_subsurface_color ∧
     (m.set_bumpiness v).get_emissive_color = m.get_emissive_color ∧
     (m.set_bumpiness v).get_tiling = m.get_tiling ∧
     (m.set_bumpiness v).get_dither_threshold = m.get_dither_threshold ∧
     (m.set_bumpiness v).m_maps = m.m_maps ∧
     (m.set_bumpiness v).base = m.base) ∧
    ((m.set_alpha_test_value v).get_alpha_test_value = v ∧
     (m.set_alpha_test_value v).get_roughness = m.get_roughness ∧
     (m.set_alpha_test_value v).get_metalness = m.get_metalness ∧
     (m.set_alpha_test_value v).get_bumpiness = m.get_bumpiness ∧
     (m.set_alpha_test_value v).get_base_color = m.get_base_color ∧
     (m.set_alpha_test_value v).get_subsurface_color = m.get_subsurface_color ∧
     (m.set_alpha_test_value v).get_emissive_color = m.get_emissive_color ∧
     (m.set_alpha_test_value v).get_tiling = m.get_tiling ∧
     (m.set_alpha_test_value v).get_dither_threshold = m.get_dither_threshold ∧
     (m.set_alpha_test_value v).m_maps = m.m_maps ∧
     (m.set_alpha_test_value v).base = m.base) :=
  ⟨⟨rfl, rfl, rfl, rfl, rfl, rfl, rfl, rfl, rfl, rfl, rfl⟩,
   ⟨rfl, rfl, rfl, rfl, rfl, rfl, rfl, rfl, rfl, rfl, rfl⟩,
   ⟨rfl, rfl, rfl, rfl, rfl, rfl, rfl, rfl, rfl, rfl, rfl⟩,
   ⟨rfl, rfl, rfl, rfl, rfl, rfl, rfl, rfl, rfl, rfl, rfl⟩⟩

end EtherealEngine
